import Mathlib

/-!
Verification of the `vm_connection` module (`SSHConnection`): a shallow
embedding of its connection state and of the operations `connect`,
`execute`, `_check_reboot`, `is_alive`, `reconnect` and `disconnect`.
The external transport (paramiko) is modelled by explicit environment
values scripting the outcomes of each transport interaction (key loading,
session establishment, command issue, per-iteration channel polls, final
drains and exit statuses, including injected transport exceptions).
Wall-clock readings are scripted integers; error classification follows
the source's string inspection of exception messages.
-/

namespace VMConn

/-! ### Python string helpers used by the source -/

/-- Whitespace characters stripped by Python's `str.strip` / `str.rstrip`
(ASCII subset; the fingerprint and output lines the module handles are
ASCII text). -/
def isPySpace (c : Char) : Bool :=
  c == ' ' || c == '\t' || c == '\n' || c == '\r' || c == '\x0b' || c == '\x0c'

/-- Python `str.rstrip()`: drop trailing whitespace. -/
def pyRstrip (s : String) : String :=
  ⟨(s.data.reverse.dropWhile isPySpace).reverse⟩

/-- Python `str.strip()`: drop leading and trailing whitespace. -/
def pyStrip (s : String) : String :=
  ⟨((s.data.dropWhile isPySpace).reverse.dropWhile isPySpace).reverse⟩

/-- `startsWithL needle hay`: `needle` is a leading subsequence of `hay`. -/
def startsWithL : List Char → List Char → Bool
  | [], _ => true
  | _ :: _, [] => false
  | a :: as, b :: bs => a == b && startsWithL as bs

/-- `hasSub needle hay`: `needle` occurs contiguously inside `hay`
(Python's `in` on strings). -/
def hasSub (needle : List Char) : List Char → Bool
  | [] => startsWithL needle []
  | c :: cs => startsWithL needle (c :: cs) || hasSub needle cs

/-- `"timeout" in str(e).lower()` — the source's string-based test used to
classify a caught exception as timeout-flavored. -/
def timeoutFlavored (msg : String) : Bool :=
  hasSub "timeout".data (msg.data.map Char.toLower)

/-- The fixed marker prepended to standard-error lines. -/
def stderrMarker : String := "STDERR: "

/-- `tagErr l` is the string passed to the sink for a stderr line `l`. -/
def tagErr (l : String) : String := stderrMarker ++ l

/-- Whether a sink string carries the stderr marker. -/
def hasMarker (l : String) : Bool := startsWithL stderrMarker.data l.data

/-! ### Connection state (`SSHConnection.__init__`) -/

/-- The mutable state of an `SSHConnection` object.  The session handle
(`self.client`) is opaque: only its presence matters to the control flow. -/
structure ConnState where
  host : String
  user : String
  key_path : String
  port : Int
  client : Option Unit
  connected : Bool
  boot_time : Option String
  deriving Repr, DecidableEq

/-- `SSHConnection.__init__`: no session, disconnected, no fingerprint. -/
def initState (host user key_path : String) (port : Int) : ConnState :=
  ⟨host, user, key_path, port, none, false, none⟩

/-- Python truthiness of `self.boot_time` (`if not self.boot_time`):
`None` and the empty string are falsy. -/
def bootTruthy : Option String → Bool
  | none => false
  | some s => s ≠ ""

/-! ### `_check_reboot` -/

inductive CheckResult where
  | pass
  | reboot
  deriving Repr, DecidableEq

/-- `SSHConnection._check_reboot`, with the fresh-fingerprint fetch
scripted by `fetch` (`none` = the fetch raised; `some raw` = the raw bytes
read, which the source strips before comparing).  A mismatch raises
`UnexpectedRebootError`; a failed fetch is swallowed (`except: pass`). -/
def checkReboot (boot_time : Option String) (fetch : Option String) : CheckResult :=
  match boot_time with
  | none => .pass
  | some bt =>
    if bt = "" then .pass
    else
      match fetch with
      | none => .pass
      | some raw => if pyStrip raw ≠ bt then .reboot else .pass

/-! ### `execute` -/

/-- One iteration of the `execute` polling loop as observed from the
transport: the wall-clock reading, whether `exit_status_ready()` holds,
and for each channel whether `recv_ready()` holds and what `readline()`
returns. -/
structure ExecIter where
  time : Int
  exitReady : Bool
  stdoutReady : Bool
  stdoutLine : String
  stderrReady : Bool
  stderrLine : String
  deriving Repr, DecidableEq

/-- A scripted event of the polling loop: either a normal iteration or a
transport exception (message `msg`) raised at that point. -/
inductive ExecStep where
  | poll (it : ExecIter)
  | fault (msg : String)
  deriving Repr, DecidableEq

/-- What happens after the polling loop exits normally: either
`recv_exit_status()` returns a code, or a transport exception is raised
while draining / fetching the status. -/
inductive Finale where
  | status (code : Int)
  | fault (msg : String)
  deriving Repr, DecidableEq

/-- The scripted behaviour of one issued command: the wall clock at
issuance, the polling-loop events, the lines still buffered on each
channel when the loop exits, and the finale. -/
structure CommandRun where
  startTime : Int
  steps : List ExecStep
  remStdout : List String
  remStderr : List String
  finale : Finale
  deriving Repr, DecidableEq

/-- Environment of one `execute` call: the `_check_reboot` fetch outcome
and the outcome of `exec_command` (raises, or yields a scripted run). -/
structure ExecEnv where
  rebootFetch : Option String
  cmdIssue : Except String CommandRun
  deriving Repr

/-- The sink output contributed by one executed loop iteration: a
non-empty rstripped stdout line verbatim, then a non-empty rstripped
stderr line with the marker (empty lines are dropped by the
`if line and output_callback` guards). -/
def iterOut (it : ExecIter) : List String :=
  (if it.stdoutReady then
    (if pyRstrip it.stdoutLine = "" then [] else [pyRstrip it.stdoutLine])
   else []) ++
  (if it.stderrReady then
    (if pyRstrip it.stderrLine = "" then [] else [tagErr (pyRstrip it.stderrLine)])
   else [])

/-- Sink output of a list of executed loop iterations, in order. -/
def loopTrace : List ExecIter → List String
  | [] => []
  | it :: rest => iterOut it ++ loopTrace rest

inductive LoopOut where
  | finished
  | timedOut
  | fault (msg : String)
  | exhausted
  deriving Repr, DecidableEq

/-- The `while True` polling loop of `execute`: per iteration, first the
timeout check (`time.time() - start_time > timeout` raises
`CommandTimeoutError` after a best-effort channel close), then the
completion check (`break`), then the channel reads.  `exhausted` marks a
script that ends before the loop does (under-specified environment). -/
def pollLoop (timeout startTime : Int) : List ExecStep → LoopOut × List String
  | [] => (.exhausted, [])
  | .fault msg :: _ => (.fault msg, [])
  | .poll it :: rest =>
    if it.time - startTime > timeout then (.timedOut, [])
    else if it.exitReady then (.finished, [])
    else
      let r := pollLoop timeout startTime rest
      (r.1, iterOut it ++ r.2)

/-- The post-loop drain: every remaining stdout line is forwarded
rstripped (no emptiness guard here), every remaining stderr line is
forwarded rstripped with the marker. -/
def drainTrace (run : CommandRun) : List String :=
  run.remStdout.map pyRstrip ++ run.remStderr.map (fun l => tagErr (pyRstrip l))

inductive InnerOut where
  | ok (code : Int)
  | timedOut
  | fault (msg : String)
  | undef
  deriving Repr, DecidableEq

/-- Steps 3–6 of `execute` inside the `try` block, for an issued command:
run the polling loop, then on normal exit drain both channels and read
the exit status. -/
def runInner (timeout : Int) (run : CommandRun) : InnerOut × List String :=
  match pollLoop timeout run.startTime run.steps with
  | (.timedOut, tr) => (.timedOut, tr)
  | (.fault m, tr) => (.fault m, tr)
  | (.exhausted, tr) => (.undef, tr)
  | (.finished, tr) =>
    match run.finale with
    | .status c => (.ok c, tr ++ drainTrace run)
    | .fault m => (.fault m, tr ++ drainTrace run)

inductive ExecResult where
  | ok (code : Int)
  | connLost
  | cmdTimeout
  | reboot
  | undef
  deriving Repr, DecidableEq

/-- Observable outcome of one `execute` call: the result (return value or
raised exception), the state of the object afterwards, the sink
invocations in order, and the number of `exec_command`-level transport
calls made. -/
structure ExecOut where
  result : ExecResult
  state : ConnState
  trace : List String
  calls : Nat
  deriving Repr, DecidableEq

/-- The message of the `CommandTimeoutError` raised inside the loop. -/
def cmdTimeoutMsg (command : String) : String := "Command timeout: " ++ command

/-- The `except Exception as e` handler of `execute`: a caught exception
whose lowered message contains `"timeout"` is remapped to
`CommandTimeoutError` (state untouched); anything else flips
`connected = False` and is remapped to `ConnectionLostError`. -/
def applyHandler (msg : String) (s : ConnState) (tr : List String) (calls : Nat) : ExecOut :=
  if timeoutFlavored msg then ⟨.cmdTimeout, s, tr, calls⟩
  else ⟨.connLost, { s with connected := false }, tr, calls⟩

/-- The `try` block of `execute` (`exec_command` onward), including the
exception handler.  `calls` counts transport calls made before it. -/
def executeIssue (command : String) (timeout : Int) (s : ConnState)
    (issue : Except String CommandRun) (calls : Nat) : ExecOut :=
  match issue with
  | .error m => applyHandler m s [] (calls + 1)
  | .ok run =>
    match runInner timeout run with
    | (.ok c, tr) => ⟨.ok c, s, tr, calls + 1⟩
    | (.timedOut, tr) => applyHandler (cmdTimeoutMsg command) s tr (calls + 1)
    | (.fault m, tr) => applyHandler m s tr (calls + 1)
    | (.undef, tr) => ⟨.undef, s, tr, calls + 1⟩

/-- `SSHConnection.execute`: the connected guard (raises
`ConnectionLostError` with no transport call), the pre-flight
`_check_reboot` (outside the `try`, so `UnexpectedRebootError`
propagates with the state untouched), then the issued command. -/
def execute (command : String) (timeout : Int) (s : ConnState) (env : ExecEnv) : ExecOut :=
  if !s.connected then ⟨.connLost, s, [], 0⟩
  else
    let fetchCalls : Nat := if bootTruthy s.boot_time then 1 else 0
    match checkReboot s.boot_time env.rebootFetch with
    | .reboot => ⟨.reboot, s, [], fetchCalls⟩
    | .pass => executeIssue command timeout s env.cmdIssue fetchCalls

/-! ### `connect` and `_get_boot_time` -/

/-- How `self.client.connect(...)` fails: `socket.timeout` (deadline
expiry) or any other exception. -/
inductive ConnectFailure where
  | timeout
  | other (msg : String)
  deriving Repr, DecidableEq

/-- Environment of one `connect` call: the outcome of
`RSAKey.from_private_key_file`, the outcome of the transport `connect`,
and the `_get_boot_time` fetch (`none` = the fetch raised, in which case
`boot_time` is set to `None`; `some raw` = the raw bytes read, stripped
before storing). -/
structure ConnectEnv where
  keyLoad : Except String Unit
  transportConnect : Except ConnectFailure Unit
  bootFetch : Option String
  deriving Repr

/-- What `connect` raises (or not): `ConnectionTimeoutError` for
`socket.timeout`, `VMConnectionError` for anything else. -/
inductive ConnectResult where
  | ok
  | timeoutErr
  | failErr
  deriving Repr, DecidableEq

/-- `SSHConnection.connect`: a fresh client handle is stored first; key
loading and session establishment may raise; on success `connected` is
set and `_get_boot_time` captures (or clears) the fingerprint. -/
def connect (s : ConnState) (env : ConnectEnv) : ConnectResult × ConnState :=
  let s1 := { s with client := some () }
  match env.keyLoad with
  | .error _ => (.failErr, s1)
  | .ok _ =>
    match env.transportConnect with
    | .error .timeout => (.timeoutErr, s1)
    | .error (.other _) => (.failErr, s1)
    | .ok _ =>
      let s2 := { s1 with connected := true }
      (.ok, { s2 with boot_time := env.bootFetch.map pyStrip })

/-- The result of `connect` depends only on the environment. -/
def connectOutcome (env : ConnectEnv) : ConnectResult :=
  match env.keyLoad with
  | .error _ => .failErr
  | .ok _ =>
    match env.transportConnect with
    | .error .timeout => .timeoutErr
    | .error (.other _) => .failErr
    | .ok _ => .ok

/-! ### `disconnect` -/

/-- `SSHConnection.disconnect`: if a client exists, close it (any close
error is swallowed — `closeRaises` is unobservable) and clear the handle;
always set `connected = False`. -/
def disconnect (s : ConnState) (closeRaises : Bool) : ConnState :=
  let s1 := if s.client.isSome then { s with client := none } else s
  { s1 with connected := false }

/-! ### `is_alive` -/

/-- A scripted event of the `is_alive` wait loop: a normal check
(`exit_status_ready()` result, and the wall clock read when not ready) or
a transport exception at that point. -/
inductive AliveStep where
  | check (ready : Bool) (time : Int)
  | fault (msg : String)
  deriving Repr, DecidableEq

inductive AliveLoopOut where
  | ready
  | timedOut
  | fault
  | exhausted
  deriving Repr, DecidableEq

/-- The `while not stdout.channel.exit_status_ready()` loop of
`is_alive`, with its fixed 5-second bound. -/
def aliveLoop (startTime : Int) : List AliveStep → AliveLoopOut
  | [] => .exhausted
  | .fault _ :: _ => .fault
  | .check ready t :: rest =>
    if ready then .ready
    else if t - startTime > 5 then .timedOut
    else aliveLoop startTime rest

/-- Scripted behaviour of the `echo test` liveness command: wall clock at
issuance, wait-loop events, then `recv_exit_status()` (a code, or an
exception). -/
structure AliveRun where
  startTime : Int
  polls : List AliveStep
  finale : Except String Int
  deriving Repr

/-- Environment of one `is_alive` call: the `get_transport()` outcome
(`.error` = it raised; `.ok none` = no transport; `.ok (some b)` =
`is_active()` returned `b`) and the `exec_command` outcome. -/
structure AliveEnv where
  transport : Except String (Option Bool)
  issue : Except String AliveRun
  deriving Repr

/-- `SSHConnection.is_alive`.  Returns `none` only when the scripted
wait loop ends before the code's loop would (under-specified
environment).  Every exception inside the `try` flips
`connected = False`; the 5-second bound path returns `False` leaving the
state untouched. -/
def is_alive (s : ConnState) (env : AliveEnv) : Option (Bool × ConnState) :=
  if !s.connected || s.client.isNone then some (false, s)
  else
    match env.transport with
    | .error _ => some (false, { s with connected := false })
    | .ok none => some (false, { s with connected := false })
    | .ok (some false) => some (false, { s with connected := false })
    | .ok (some true) =>
      match env.issue with
      | .error _ => some (false, { s with connected := false })
      | .ok run =>
        match aliveLoop run.startTime run.polls with
        | .exhausted => none
        | .fault => some (false, { s with connected := false })
        | .timedOut => some (false, s)
        | .ready =>
          match run.finale with
          | .error _ => some (false, { s with connected := false })
          | .ok c => some (c == 0, s)

/-- The boolean verdict of `is_alive`, as a function of the environment
alone — valid whenever the initial guard passes (connected with a
client). -/
def aliveResult (env : AliveEnv) : Option Bool :=
  match env.transport with
  | .error _ => some false
  | .ok none => some false
  | .ok (some false) => some false
  | .ok (some true) =>
    match env.issue with
    | .error _ => some false
    | .ok run =>
      match aliveLoop run.startTime run.polls with
      | .exhausted => none
      | .fault => some false
      | .timedOut => some false
      | .ready =>
        match run.finale with
        | .error _ => some false
        | .ok c => some (c == 0)

/-! ### `reconnect` -/

/-- Environment of one attempt of the `reconnect` loop: the `connect`
environment and, should `connect` succeed, the `is_alive` environment. -/
structure AttemptEnv where
  connectEnv : ConnectEnv
  aliveEnv : AliveEnv
  deriving Repr

/-- Environment of one `reconnect` call: the initial `disconnect`'s close
behaviour and one attempt environment per attempt index. -/
structure ReconnectEnv where
  closeRaises : Bool
  attempts : Nat → AttemptEnv

/-- One iteration of the `reconnect` retry loop's `try` body: `connect`
(every exception swallowed, counting as a failed attempt) followed by
`is_alive` on success. -/
def runAttempt (s : ConnState) (e : AttemptEnv) : Option (Bool × ConnState) :=
  match connect s e.connectEnv with
  | (.ok, s1) =>
    match is_alive s1 e.aliveEnv with
    | none => none
    | some (b, s2) => some (b, s2)
  | (_, s1) => some (false, s1)

/-- Observable outcome of `reconnect`: the returned boolean, the final
state, the number of loop iterations run, and the number of
`time.sleep(delay)` calls made. -/
structure ReconnectOut where
  result : Bool
  state : ConnState
  attempts : Nat
  sleeps : Nat
  deriving Repr, DecidableEq

/-- The `for attempt in range(max_retries)` loop of `reconnect`:
`remaining` iterations left, `idx` the current attempt index.  A sleep
happens after a failed attempt only when further attempts remain
(`attempt < max_retries - 1`). -/
def reconnectAux (envs : Nat → AttemptEnv) : Nat → Nat → ConnState → Option ReconnectOut
  | _, 0, s => some ⟨false, s, 0, 0⟩
  | idx, n + 1, s =>
    match runAttempt s (envs idx) with
    | none => none
    | some (true, s1) => some ⟨true, s1, 1, 0⟩
    | some (false, s1) =>
      if n = 0 then some ⟨false, s1, 1, 0⟩
      else
        match reconnectAux envs (idx + 1) n s1 with
        | none => none
        | some o => some ⟨o.result, o.state, o.attempts + 1, o.sleeps + 1⟩

/-- `SSHConnection.reconnect`: unconditional `disconnect` first, then the
bounded retry loop.  `delay` only feeds `time.sleep` and is unobservable
beyond the sleep count. -/
def reconnect (s : ConnState) (env : ReconnectEnv) (max_retries : Nat) (delay : Int) :
    Option ReconnectOut :=
  reconnectAux env.attempts 0 max_retries (disconnect s env.closeRaises)

/-- The verdict of one reconnect attempt as a function of its environment
alone (state-independent). -/
def attemptBool (e : AttemptEnv) : Option Bool :=
  match connectOutcome e.connectEnv with
  | .ok => aliveResult e.aliveEnv
  | _ => some false

/-! ### The connection invariant -/

/-- The documented data-model invariant: a connected object holds a
session handle. -/
def Inv (s : ConnState) : Prop := s.connected = true → s.client.isSome = true

/-! ### String lemmas -/

theorem startsWithL_append_of {n u : List Char} (t : List Char)
    (h : startsWithL n u = true) : startsWithL n (u ++ t) = true := by
  induction n generalizing u with
  | nil => simp [startsWithL]
  | cons a as ih =>
    cases u with
    | nil => simp [startsWithL] at h
    | cons b bs =>
      simp only [startsWithL, Bool.and_eq_true] at h ⊢
      exact ⟨h.1, ih h.2⟩

theorem startsWithL_self_append (n t : List Char) :
    startsWithL n (n ++ t) = true := by
  induction n with
  | nil => simp [startsWithL]
  | cons a as ih => simp [startsWithL, ih]

theorem hasSub_append_of {n h : List Char} (t : List Char)
    (hh : hasSub n h = true) : hasSub n (h ++ t) = true := by
  induction h with
  | nil =>
    simp only [hasSub] at hh
    cases n with
    | nil => cases t <;> simp [hasSub, startsWithL]
    | cons a as => simp [startsWithL] at hh
  | cons c cs ih =>
    simp only [hasSub, Bool.or_eq_true] at hh ⊢
    rcases hh with hh | hh
    · exact Or.inl (startsWithL_append_of (u := c :: cs) t hh)
    · exact Or.inr (ih hh)

theorem timeoutFlavored_cmdTimeoutMsg (command : String) :
    timeoutFlavored (cmdTimeoutMsg command) = true := by
  unfold timeoutFlavored cmdTimeoutMsg
  rw [String.data_append, List.map_append]
  exact hasSub_append_of _ (by decide)

theorem hasMarker_tagErr (l : String) : hasMarker (tagErr l) = true := by
  unfold hasMarker tagErr
  rw [String.data_append]
  exact startsWithL_self_append _ _

/-! ### Polling-loop lemmas -/

/-- A well-behaved poll iteration: within the timeout and not yet
completed. -/
def stepOk (timeout startTime : Int) (it : ExecIter) : Prop :=
  it.time - startTime ≤ timeout ∧ it.exitReady = false

theorem pollLoop_ok_prefix (timeout startTime : Int) (pre : List ExecIter)
    (tail : List ExecStep) (h : ∀ it ∈ pre, stepOk timeout startTime it) :
    pollLoop timeout startTime (pre.map ExecStep.poll ++ tail) =
      ((pollLoop timeout startTime tail).1,
        loopTrace pre ++ (pollLoop timeout startTime tail).2) := by
  induction pre with
  | nil => simp [loopTrace]
  | cons it rest ih =>
    have h1 := h it (List.mem_cons_self _ _)
    have h2 : ∀ x ∈ rest, stepOk timeout startTime x :=
      fun x hx => h x (List.mem_cons_of_mem _ hx)
    simp only [List.map_cons, List.cons_append, pollLoop]
    rw [if_neg (not_lt.mpr h1.1), h1.2]
    simp [ih h2, loopTrace]

/-- A stdout line forwarded unmangled by the loop: fixed by `rstrip`,
non-empty, and not carrying the stderr marker. -/
def cleanOutLine (l : String) : Prop :=
  pyRstrip l = l ∧ l ≠ "" ∧ hasMarker l = false

/-- A stderr line forwarded unmangled by the loop: fixed by `rstrip` and
non-empty. -/
def cleanErrLine (l : String) : Prop := pyRstrip l = l ∧ l ≠ ""

instance (timeout startTime : Int) : DecidablePred (stepOk timeout startTime) :=
  fun it => by unfold stepOk; infer_instance

instance : DecidablePred cleanOutLine :=
  fun l => by unfold cleanOutLine; infer_instance

instance : DecidablePred cleanErrLine :=
  fun l => by unfold cleanErrLine; infer_instance

theorem loopTrace_filter_plain (pre : List ExecIter)
    (hso : ∀ it ∈ pre, it.stdoutReady = true → cleanOutLine it.stdoutLine)
    (hse : ∀ it ∈ pre, it.stderrReady = true → cleanErrLine it.stderrLine) :
    (loopTrace pre).filter (fun l => !(hasMarker l)) =
      pre.filterMap (fun it => if it.stdoutReady then some it.stdoutLine else none) := by
  induction pre with
  | nil => rfl
  | cons it rest ih =>
    have ih' := ih (fun x hx => hso x (List.mem_cons_of_mem _ hx))
      (fun x hx => hse x (List.mem_cons_of_mem _ hx))
    simp only [loopTrace, List.filter_append, List.filterMap_cons, ih']
    cases h1 : it.stdoutReady with
    | false =>
      cases h2 : it.stderrReady with
      | false => simp [iterOut, h1, h2]
      | true =>
        obtain ⟨e1, e2⟩ := hse it (List.mem_cons_self _ _) h2
        simp [iterOut, h1, h2, e1, e2, hasMarker_tagErr]
    | true =>
      obtain ⟨e1, e2, e3⟩ := hso it (List.mem_cons_self _ _) h1
      cases h2 : it.stderrReady with
      | false => simp [iterOut, h1, h2, e1, e2, e3]
      | true =>
        obtain ⟨f1, f2⟩ := hse it (List.mem_cons_self _ _) h2
        simp [iterOut, h1, h2, e1, e2, e3, f1, f2, hasMarker_tagErr]

theorem loopTrace_filter_marked (pre : List ExecIter)
    (hso : ∀ it ∈ pre, it.stdoutReady = true → cleanOutLine it.stdoutLine)
    (hse : ∀ it ∈ pre, it.stderrReady = true → cleanErrLine it.stderrLine) :
    (loopTrace pre).filter hasMarker =
      (pre.filterMap (fun it => if it.stderrReady then some it.stderrLine else none)).map
        tagErr := by
  induction pre with
  | nil => rfl
  | cons it rest ih =>
    have ih' := ih (fun x hx => hso x (List.mem_cons_of_mem _ hx))
      (fun x hx => hse x (List.mem_cons_of_mem _ hx))
    simp only [loopTrace, List.filter_append, List.filterMap_cons, ih']
    cases h1 : it.stdoutReady with
    | false =>
      cases h2 : it.stderrReady with
      | false => simp [iterOut, h1, h2]
      | true =>
        obtain ⟨e1, e2⟩ := hse it (List.mem_cons_self _ _) h2
        simp [iterOut, h1, h2, e1, e2, hasMarker_tagErr]
    | true =>
      obtain ⟨e1, e2, e3⟩ := hso it (List.mem_cons_self _ _) h1
      cases h2 : it.stderrReady with
      | false => simp [iterOut, h1, h2, e1, e2, e3]
      | true =>
        obtain ⟨f1, f2⟩ := hse it (List.mem_cons_self _ _) h2
        simp [iterOut, h1, h2, e1, e2, e3, f1, f2, hasMarker_tagErr]

theorem drainTrace_filter_plain (run : CommandRun)
    (h1 : ∀ l ∈ run.remStdout, pyRstrip l = l ∧ hasMarker l = false)
    (h2 : ∀ l ∈ run.remStderr, pyRstrip l = l) :
    (drainTrace run).filter (fun l => !(hasMarker l)) = run.remStdout := by
  unfold drainTrace
  rw [List.filter_append]
  have e1 : run.remStdout.map pyRstrip = run.remStdout := by
    rw [List.map_congr_left (fun l hl => (h1 l hl).1)]; exact List.map_id _
  have e2 : run.remStderr.map (fun l => tagErr (pyRstrip l)) =
      run.remStderr.map tagErr := List.map_congr_left (fun l hl => by rw [h2 l hl])
  rw [e1, e2, List.filter_eq_self.mpr, List.filter_eq_nil_iff.mpr, List.append_nil]
  · intro a ha
    obtain ⟨l, _, rfl⟩ := List.mem_map.mp ha
    simp [hasMarker_tagErr]
  · intro a ha
    simp [(h1 a ha).2]

theorem drainTrace_filter_marked (run : CommandRun)
    (h1 : ∀ l ∈ run.remStdout, pyRstrip l = l ∧ hasMarker l = false)
    (h2 : ∀ l ∈ run.remStderr, pyRstrip l = l) :
    (drainTrace run).filter hasMarker = run.remStderr.map tagErr := by
  unfold drainTrace
  rw [List.filter_append]
  have e1 : run.remStdout.map pyRstrip = run.remStdout := by
    rw [List.map_congr_left (fun l hl => (h1 l hl).1)]; exact List.map_id _
  have e2 : run.remStderr.map (fun l => tagErr (pyRstrip l)) =
      run.remStderr.map tagErr := List.map_congr_left (fun l hl => by rw [h2 l hl])
  rw [e1, e2, List.filter_eq_nil_iff.mpr, List.filter_eq_self.mpr, List.nil_append]
  · intro a ha
    obtain ⟨l, _, rfl⟩ := List.mem_map.mp ha
    simp [hasMarker_tagErr]
  · intro a ha
    simp [(h1 a ha).2]

/-! ### Claim C1 -/

/-- C1: on a connected instance whose command completes normally, every
stdout line produced is forwarded to the sink verbatim, every stderr line
is forwarded prefixed with the fixed marker `STDERR: `, order preserved
per channel, and `execute` returns the remote exit status. -/
theorem execute_normal_streams_and_status
    (command : String) (timeout : Int) (s : ConnState) (env : ExecEnv)
    (run : CommandRun) (pre : List ExecIter) (last : ExecIter) (code : Int)
    (hconn : s.connected = true)
    (hcheck : checkReboot s.boot_time env.rebootFetch = .pass)
    (hissue : env.cmdIssue = .ok run)
    (hsteps : run.steps = pre.map ExecStep.poll ++ [ExecStep.poll last])
    (hpre : ∀ it ∈ pre, stepOk timeout run.startTime it)
    (hlast1 : last.time - run.startTime ≤ timeout)
    (hlast2 : last.exitReady = true)
    (hfin : run.finale = .status code)
    (hso : ∀ it ∈ pre, it.stdoutReady = true → cleanOutLine it.stdoutLine)
    (hse : ∀ it ∈ pre, it.stderrReady = true → cleanErrLine it.stderrLine)
    (hrem1 : ∀ l ∈ run.remStdout, pyRstrip l = l ∧ hasMarker l = false)
    (hrem2 : ∀ l ∈ run.remStderr, pyRstrip l = l) :
    (execute command timeout s env).result = .ok code ∧
    (execute command timeout s env).trace.filter (fun l => !(hasMarker l)) =
      pre.filterMap (fun it => if it.stdoutReady then some it.stdoutLine else none)
        ++ run.remStdout ∧
    (execute command timeout s env).trace.filter hasMarker =
      ((pre.filterMap fun it => if it.stderrReady then some it.stderrLine else none)
        ++ run.remStderr).map tagErr := by
  have hq : pollLoop timeout run.startTime run.steps = (.finished, loopTrace pre) := by
    rw [hsteps, pollLoop_ok_prefix _ _ _ _ hpre]
    simp [pollLoop, if_neg (not_lt.mpr hlast1), hlast2]
  have hr : runInner timeout run = (.ok code, loopTrace pre ++ drainTrace run) := by
    rw [runInner, hq, hfin]
  have hx : execute command timeout s env =
      ⟨.ok code, s, loopTrace pre ++ drainTrace run,
        (if bootTruthy s.boot_time then 1 else 0) + 1⟩ := by
    simp only [execute, executeIssue, hconn, hcheck, hissue, hr, Bool.not_true,
      Bool.false_eq_true, if_false]
  rw [hx]
  refine ⟨rfl, ?_, ?_⟩
  · show (loopTrace pre ++ drainTrace run).filter _ = _
    rw [List.filter_append, loopTrace_filter_plain pre hso hse,
      drainTrace_filter_plain run hrem1 hrem2]
  · show (loopTrace pre ++ drainTrace run).filter _ = _
    rw [List.filter_append, loopTrace_filter_marked pre hso hse,
      drainTrace_filter_marked run hrem1 hrem2, List.map_append]

/-- Fixture state for witnesses: a connected instance without a stored
fingerprint. -/
def wAState : ConnState := ⟨"vm", "root", "/k", 22, some (), true, none⟩

/-- Fixture run for the C1 witness: one iteration delivering `"a"` on
stdout and `"b"` on stderr, then completion with exit status 0. -/
def wARun : CommandRun :=
  ⟨0, [.poll ⟨0, false, true, "a", true, "b"⟩, .poll ⟨1, true, false, "", false, ""⟩],
    [], [], .status 0⟩

/-- Witness for C1: the sink receives exactly `"a"` and `"STDERR: b"` and
`execute` returns 0. -/
theorem execute_normal_streams_and_status_witness :
    (execute "echo" 60 wAState ⟨none, .ok wARun⟩).result = .ok 0 ∧
    (execute "echo" 60 wAState ⟨none, .ok wARun⟩).trace.filter (fun l => !(hasMarker l)) =
      ["a"] ∧
    (execute "echo" 60 wAState ⟨none, .ok wARun⟩).trace.filter hasMarker =
      ["STDERR: b"] := by
  have h := execute_normal_streams_and_status "echo" 60 wAState ⟨none, .ok wARun⟩
    wARun [⟨0, false, true, "a", true, "b"⟩] ⟨1, true, false, "", false, ""⟩ 0
    rfl rfl rfl rfl (by decide) (by decide) rfl rfl (by decide) (by decide)
    (by decide) (by decide)
  exact ⟨h.1, by rw [h.2.1]; rfl, by rw [h.2.2]; rfl⟩

/-! ### Claim C4 -/

/-- C4: `execute` on a disconnected instance raises `ConnectionLost`
immediately: state untouched, no sink invocation, zero transport calls. -/
theorem execute_disconnected_connLost
    (command : String) (timeout : Int) (s : ConnState) (env : ExecEnv)
    (h : s.connected = false) :
    execute command timeout s env = ⟨.connLost, s, [], 0⟩ := by
  simp [execute, h]

/-- Witness for C4 on a freshly constructed (never connected) instance. -/
theorem execute_disconnected_connLost_witness :
    execute "ls" 60 (initState "vm" "root" "/k" 22) ⟨none, .error "boom"⟩ =
      ⟨.connLost, initState "vm" "root" "/k" 22, [], 0⟩ :=
  execute_disconnected_connLost "ls" 60 (initState "vm" "root" "/k" 22)
    ⟨none, .error "boom"⟩ rfl

/-! ### Claim C9 -/

theorem executeIssue_result_ne_reboot (command : String) (timeout : Int)
    (s : ConnState) (issue : Except String CommandRun) (calls : Nat) :
    (executeIssue command timeout s issue calls).result ≠ .reboot := by
  cases issue with
  | error m =>
    simp only [executeIssue, applyHandler]
    split <;> simp
  | ok run =>
    rcases hri : runInner timeout run with ⟨o, tr⟩
    cases o with
    | ok c => simp [executeIssue, hri]
    | timedOut => simp only [executeIssue, hri, applyHandler]; split <;> simp
    | fault m => simp only [executeIssue, hri, applyHandler]; split <;> simp
    | undef => simp [executeIssue, hri]

/-- C9: when `execute` raises `UnexpectedReboot` from the pre-flight
check, the connection state is entirely unchanged — in particular
`connected` is still `true` and the handle and fingerprint are
untouched. -/
theorem execute_reboot_leaves_state
    (command : String) (timeout : Int) (s : ConnState) (env : ExecEnv)
    (h : (execute command timeout s env).result = .reboot) :
    (execute command timeout s env).state = s ∧ s.connected = true := by
  by_cases hc : s.connected
  · refine ⟨?_, hc⟩
    cases hcr : checkReboot s.boot_time env.rebootFetch with
    | reboot => simp only [execute, hc, Bool.not_true, Bool.false_eq_true, if_false, hcr]
    | pass =>
      simp only [execute, hc, Bool.not_true, Bool.false_eq_true, if_false, hcr] at h
      exact absurd h (executeIssue_result_ne_reboot _ _ _ _ _)
  · rw [Bool.not_eq_true] at hc
    simp only [execute, hc, Bool.not_false, if_true] at h
    cases h

/-- Fixture state with a stored fingerprint, for reboot-check witnesses. -/
def wBState : ConnState := ⟨"vm", "root", "/k", 22, some (), true, some "100"⟩

/-- Witness for C9: a detected reboot aborts the command with the state
(including `connected = true`) intact. -/
theorem execute_reboot_leaves_state_witness :
    (execute "ls" 60 wBState ⟨some "999", .error "x"⟩).state = wBState ∧
    wBState.connected = true :=
  execute_reboot_leaves_state "ls" 60 wBState ⟨some "999", .error "x"⟩ (by decide)

/-! ### Claim C3 -/

/-- C3: the pre-flight reboot check is a no-op when no fingerprint was
captured; an inconclusive fresh fetch is treated as a pass and the
command proceeds; a successful fetch that differs from the stored
fingerprint raises `UnexpectedReboot` before the command is issued, so
no output reaches the sink. -/
theorem check_reboot_preflight :
    (∀ (bt fetch : Option String), bootTruthy bt = false → checkReboot bt fetch = .pass) ∧
    (∀ (bt : Option String), checkReboot bt none = .pass) ∧
    (∀ (command : String) (timeout : Int) (s : ConnState) (env : ExecEnv),
      s.connected = true → checkReboot s.boot_time env.rebootFetch = .pass →
      execute command timeout s env =
        executeIssue command timeout s env.cmdIssue
          (if bootTruthy s.boot_time then 1 else 0)) ∧
    (∀ (command : String) (timeout : Int) (s : ConnState) (env : ExecEnv) (bt raw : String),
      s.connected = true → s.boot_time = some bt → bt ≠ "" →
      env.rebootFetch = some raw → pyStrip raw ≠ bt →
      execute command timeout s env = ⟨.reboot, s, [], 1⟩) := by
  refine ⟨?_, ?_, ?_, ?_⟩
  · intro bt fetch hb
    cases bt with
    | none => rfl
    | some b =>
      simp only [bootTruthy, ne_eq, decide_not, Bool.not_eq_false', decide_eq_true_eq] at hb
      simp [checkReboot, hb]
  · intro bt
    cases bt with
    | none => rfl
    | some b => simp [checkReboot]
  · intro command timeout s env hc hcr
    simp only [execute, hc, Bool.not_true, Bool.false_eq_true, if_false, hcr]
  · intro command timeout s env bt raw hc hbt hne hfetch hmis
    have hcr : checkReboot s.boot_time env.rebootFetch = .reboot := by
      rw [hbt, hfetch]
      simp [checkReboot, hne, hmis]
    have hb : bootTruthy s.boot_time = true := by simp [hbt, bootTruthy, hne]
    simp only [execute, hc, Bool.not_true, Bool.false_eq_true, if_false, hcr, hb, if_true]

/-- Witness for C3: the no-fingerprint no-op, the inconclusive-fetch
pass, the proceed-on-pass reduction, and a concrete detected mismatch. -/
theorem check_reboot_preflight_witness :
    checkReboot none (some "5") = .pass ∧
    checkReboot (some "100") none = .pass ∧
    execute "ls" 60 wAState ⟨none, .error "e"⟩ =
      executeIssue "ls" 60 wAState (Except.error "e")
        (if bootTruthy wAState.boot_time then 1 else 0) ∧
    execute "ls" 60 wBState ⟨some "999", .error "e"⟩ = ⟨.reboot, wBState, [], 1⟩ := by
  refine ⟨?_, ?_, ?_, ?_⟩
  · exact check_reboot_preflight.1 none (some "5") rfl
  · exact check_reboot_preflight.2.1 (some "100")
  · exact check_reboot_preflight.2.2.1 "ls" 60 wAState ⟨none, .error "e"⟩ rfl rfl
  · exact check_reboot_preflight.2.2.2 "ls" 60 wBState ⟨some "999", .error "e"⟩
      "100" "999" rfl rfl (by decide) rfl (by decide)

/-! ### Claim C2 -/

/-- The classification the `except Exception` handler of `execute`
performs on a caught transport error with message `msg`. -/
def classified (s : ConnState) (msg : String) (out : ExecOut) : Prop :=
  (timeoutFlavored msg = true → out.result = .cmdTimeout ∧ out.state = s) ∧
  (timeoutFlavored msg = false →
    out.result = .connLost ∧ out.state = { s with connected := false })

theorem classified_applyHandler (s : ConnState) (msg : String)
    (tr : List String) (calls : Nat) :
    classified s msg (applyHandler msg s tr calls) := by
  constructor <;> intro hf <;> simp [applyHandler, hf]

/-- Reduction of `execute` to the issue phase under a passed check. -/
theorem execute_pass_eq (command : String) (timeout : Int) (s : ConnState)
    (env : ExecEnv) (hc : s.connected = true)
    (hcr : checkReboot s.boot_time env.rebootFetch = .pass) :
    execute command timeout s env =
      executeIssue command timeout s env.cmdIssue
        (if bootTruthy s.boot_time then 1 else 0) := by
  simp only [execute, hc, Bool.not_true, Bool.false_eq_true, if_false, hcr]

/-- C2: a transport error raised while `execute` is issuing, polling, or
draining is classified by its message — timeout-flavored errors become
`CommandTimeout` with `connected` untouched, all others flip
`connected = false` and become `ConnectionLost`; and an in-flight command
whose elapsed wall time exceeds the timeout ends in `CommandTimeout`. -/
theorem execute_error_classification :
    (∀ (command : String) (timeout : Int) (s : ConnState) (env : ExecEnv) (msg : String),
      s.connected = true → checkReboot s.boot_time env.rebootFetch = .pass →
      env.cmdIssue = .error msg →
      classified s msg (execute command timeout s env)) ∧
    (∀ (command : String) (timeout : Int) (s : ConnState) (env : ExecEnv)
      (run : CommandRun) (pre : List ExecIter) (msg : String) (rest : List ExecStep),
      s.connected = true → checkReboot s.boot_time env.rebootFetch = .pass →
      env.cmdIssue = .ok run →
      run.steps = pre.map ExecStep.poll ++ (ExecStep.fault msg :: rest) →
      (∀ it ∈ pre, stepOk timeout run.startTime it) →
      classified s msg (execute command timeout s env)) ∧
    (∀ (command : String) (timeout : Int) (s : ConnState) (env : ExecEnv)
      (run : CommandRun) (pre : List ExecIter) (last : ExecIter) (msg : String),
      s.connected = true → checkReboot s.boot_time env.rebootFetch = .pass →
      env.cmdIssue = .ok run →
      run.steps = pre.map ExecStep.poll ++ [ExecStep.poll last] →
      (∀ it ∈ pre, stepOk timeout run.startTime it) →
      last.time - run.startTime ≤ timeout → last.exitReady = true →
      run.finale = .fault msg →
      classified s msg (execute command timeout s env)) ∧
    (∀ (command : String) (timeout : Int) (s : ConnState) (env : ExecEnv)
      (run : CommandRun) (pre : List ExecIter) (it : ExecIter) (rest : List ExecStep),
      s.connected = true → checkReboot s.boot_time env.rebootFetch = .pass →
      env.cmdIssue = .ok run →
      run.steps = pre.map ExecStep.poll ++ (ExecStep.poll it :: rest) →
      (∀ x ∈ pre, stepOk timeout run.startTime x) →
      it.time - run.startTime > timeout →
      (execute command timeout s env).result = .cmdTimeout ∧
      (execute command timeout s env).state = s) := by
  refine ⟨?_, ?_, ?_, ?_⟩
  · intro command timeout s env msg hc hcr hissue
    rw [execute_pass_eq command timeout s env hc hcr, hissue]
    exact classified_applyHandler s msg [] _
  · intro command timeout s env run pre msg rest hc hcr hissue hsteps hpre
    have hq : pollLoop timeout run.startTime run.steps = (.fault msg, loopTrace pre) := by
      rw [hsteps, pollLoop_ok_prefix _ _ _ _ hpre]
      simp [pollLoop]
    have hr : runInner timeout run = (.fault msg, loopTrace pre) := by
      rw [runInner, hq]
    rw [execute_pass_eq command timeout s env hc hcr, hissue]
    simp only [executeIssue, hr]
    exact classified_applyHandler s msg _ _
  · intro command timeout s env run pre last msg hc hcr hissue hsteps hpre hl1 hl2 hfin
    have hq : pollLoop timeout run.startTime run.steps = (.finished, loopTrace pre) := by
      rw [hsteps, pollLoop_ok_prefix _ _ _ _ hpre]
      simp [pollLoop, if_neg (not_lt.mpr hl1), hl2]
    have hr : runInner timeout run = (.fault msg, loopTrace pre ++ drainTrace run) := by
      rw [runInner, hq, hfin]
    rw [execute_pass_eq command timeout s env hc hcr, hissue]
    simp only [executeIssue, hr]
    exact classified_applyHandler s msg _ _
  · intro command timeout s env run pre it rest hc hcr hissue hsteps hpre hover
    have hq : pollLoop timeout run.startTime run.steps = (.timedOut, loopTrace pre) := by
      rw [hsteps, pollLoop_ok_prefix _ _ _ _ hpre]
      simp [pollLoop, hover]
    have hr : runInner timeout run = (.timedOut, loopTrace pre) := by
      rw [runInner, hq]
    rw [execute_pass_eq command timeout s env hc hcr, hissue]
    simp [executeIssue, hr, applyHandler, timeoutFlavored_cmdTimeoutMsg]

/-- Fixture run for the C2 witness: a transport fault mid-polling. -/
def wCRun : CommandRun :=
  ⟨0, [.poll ⟨0, false, false, "", false, ""⟩, .fault "broken pipe"], [], [], .status 0⟩

/-- Fixture run for the C2 witness: the second poll exceeds the
timeout budget. -/
def wDRun : CommandRun :=
  ⟨0, [.poll ⟨0, false, false, "", false, ""⟩, .poll ⟨61, false, false, "", false, ""⟩],
    [], [], .status 0⟩

/-- Witness for C2: a non-timeout transport fault mid-command is
remapped to `ConnectionLost` with `connected` flipped, and a command
still running after 61 simulated seconds with `timeout = 60` raises
`CommandTimeout` with the state untouched. -/
theorem execute_error_classification_witness :
    classified wAState "broken pipe" (execute "ls" 60 wAState ⟨none, .ok wCRun⟩) ∧
    (execute "sleep 100" 60 wAState ⟨none, .ok wDRun⟩).result = .cmdTimeout ∧
    (execute "sleep 100" 60 wAState ⟨none, .ok wDRun⟩).state = wAState := by
  constructor
  · exact execute_error_classification.2.1 "ls" 60 wAState ⟨none, .ok wCRun⟩
      wCRun [⟨0, false, false, "", false, ""⟩] "broken pipe" [] rfl rfl rfl rfl
      (by decide)
  · exact execute_error_classification.2.2.2 "sleep 100" 60 wAState
      ⟨none, .ok wDRun⟩ wDRun [⟨0, false, false, "", false, ""⟩]
      ⟨61, false, false, "", false, ""⟩ [] rfl rfl rfl rfl (by decide) (by decide)

/-! ### Claim C6 -/

/-- C6: a failing `connect` on a disconnected instance leaves
`connected = false` and raises a member of the connection-error family:
`ConnectionTimeout` exactly for a deadline expiry, a generic wrapped
failure otherwise. -/
theorem connect_failure_classification (s : ConnState) (env : ConnectEnv)
    (hdisc : s.connected = false)
    (hfail : (connect s env).1 ≠ .ok) :
    (connect s env).2.connected = false ∧
    ((connect s env).1 = .timeoutErr ∨ (connect s env).1 = .failErr) ∧
    ((connect s env).1 = .timeoutErr ↔
      (env.keyLoad = .ok () ∧ env.transportConnect = .error .timeout)) := by
  rcases env with ⟨kl, tc, bf⟩
  cases kl with
  | error m => simp [connect, hdisc]
  | ok u =>
    cases u
    cases tc with
    | ok v => simp [connect] at hfail
    | error f =>
      cases f with
      | timeout => simp [connect, hdisc]
      | other m => simp [connect, hdisc]

/-- Witness for C6: a simulated network exception during session
establishment. -/
theorem connect_failure_classification_witness :
    (connect (initState "vm" "root" "/k" 22)
        ⟨.ok (), .error (.other "auth failed"), none⟩).2.connected = false ∧
    ((connect (initState "vm" "root" "/k" 22)
        ⟨.ok (), .error (.other "auth failed"), none⟩).1 = .timeoutErr ∨
     (connect (initState "vm" "root" "/k" 22)
        ⟨.ok (), .error (.other "auth failed"), none⟩).1 = .failErr) := by
  have h := connect_failure_classification (initState "vm" "root" "/k" 22)
    ⟨.ok (), .error (.other "auth failed"), none⟩ rfl (by decide)
  exact ⟨h.1, h.2.1⟩

/-! ### Claim C7 -/

theorem disconnect_eq (s : ConnState) (e : Bool) :
    disconnect s e = { s with client := none, connected := false } := by
  unfold disconnect
  rcases s with ⟨h, u, k, p, c, cn, b⟩
  cases c <;> simp

/-- C7: `disconnect` never raises (it is a total function of the state),
always clears the session handle and sets `connected = false` from any
state, and doing it twice in a row equals doing it once. -/
theorem disconnect_idempotent :
    (∀ (s : ConnState) (e : Bool),
      (disconnect s e).client = none ∧ (disconnect s e).connected = false) ∧
    (∀ (s : ConnState) (e1 e2 : Bool),
      disconnect (disconnect s e1) e2 = disconnect s e1) := by
  constructor
  · intro s e
    rw [disconnect_eq]
    exact ⟨rfl, rfl⟩
  · intro s e1 e2
    simp [disconnect_eq]

/-! ### Claim C10 -/

/-- C10: when the transport is active but the liveness command does not
complete within the fixed 5-second bound, `is_alive` returns `false`
leaving `connected` unchanged, whereas the inactive-transport path and
every exception path set `connected = false` before returning `false`. -/
theorem is_alive_timeout_vs_error_paths :
    (∀ (s : ConnState) (env : AliveEnv) (run : AliveRun),
      s.connected = true → s.client = some () →
      env.transport = .ok (some true) → env.issue = .ok run →
      aliveLoop run.startTime run.polls = .timedOut →
      is_alive s env = some (false, s)) ∧
    (∀ (s : ConnState) (env : AliveEnv),
      s.connected = true → s.client = some () →
      (env.transport = .ok none ∨ env.transport = .ok (some false)) →
      is_alive s env = some (false, { s with connected := false })) ∧
    (∀ (s : ConnState) (env : AliveEnv) (m : String),
      s.connected = true → s.client = some () →
      env.transport = .error m →
      is_alive s env = some (false, { s with connected := false })) ∧
    (∀ (s : ConnState) (env : AliveEnv) (m : String),
      s.connected = true → s.client = some () →
      env.transport = .ok (some true) → env.issue = .error m →
      is_alive s env = some (false, { s with connected := false })) ∧
    (∀ (s : ConnState) (env : AliveEnv) (run : AliveRun),
      s.connected = true → s.client = some () →
      env.transport = .ok (some true) → env.issue = .ok run →
      aliveLoop run.startTime run.polls = .fault →
      is_alive s env = some (false, { s with connected := false })) ∧
    (∀ (s : ConnState) (env : AliveEnv) (run : AliveRun) (m : String),
      s.connected = true → s.client = some () →
      env.transport = .ok (some true) → env.issue = .ok run →
      aliveLoop run.startTime run.polls = .ready → run.finale = .error m →
      is_alive s env = some (false, { s with connected := false })) := by
  refine ⟨?_, ?_, ?_, ?_, ?_, ?_⟩
  · intro s env run hc hcl ht hi hl
    simp [is_alive, hc, hcl, ht, hi, hl]
  · intro s env hc hcl ht
    rcases ht with ht | ht <;> simp [is_alive, hc, hcl, ht]
  · intro s env m hc hcl ht
    simp [is_alive, hc, hcl, ht]
  · intro s env m hc hcl ht hi
    simp [is_alive, hc, hcl, ht, hi]
  · intro s env run hc hcl ht hi hl
    simp [is_alive, hc, hcl, ht, hi, hl]
  · intro s env run m hc hcl ht hi hl hf
    simp [is_alive, hc, hcl, ht, hi, hl, hf]

/-- Witness for C10: a probe exceeding the 5-second bound leaves the
state intact; an inactive transport flips `connected`. -/
theorem is_alive_timeout_vs_error_paths_witness :
    is_alive wAState ⟨.ok (some true), .ok ⟨0, [.check false 6], .ok 0⟩⟩ =
      some (false, wAState) ∧
    is_alive wAState ⟨.ok (some false), .error "unused"⟩ =
      some (false, { wAState with connected := false }) := by
  constructor
  · exact is_alive_timeout_vs_error_paths.1 wAState
      ⟨.ok (some true), .ok ⟨0, [.check false 6], .ok 0⟩⟩
      ⟨0, [.check false 6], .ok 0⟩ rfl rfl rfl rfl (by decide)
  · exact is_alive_timeout_vs_error_paths.2.1 wAState
      ⟨.ok (some false), .error "unused"⟩ rfl rfl (Or.inr rfl)

/-! ### Reconnect lemmas -/

theorem connect_fst (s : ConnState) (env : ConnectEnv) :
    (connect s env).1 = connectOutcome env := by
  rcases env with ⟨kl, tc, bf⟩
  cases kl with
  | error m => rfl
  | ok u =>
    cases u
    cases tc with
    | ok v => rfl
    | error f => cases f <;> rfl

theorem connect_ok_state (s : ConnState) (env : ConnectEnv)
    (h : (connect s env).1 = .ok) :
    (connect s env).2.connected = true ∧ (connect s env).2.client = some () := by
  rcases env with ⟨kl, tc, bf⟩
  cases kl with
  | error m => cases h
  | ok u =>
    cases u
    cases tc with
    | ok v => exact ⟨rfl, rfl⟩
    | error f => cases f <;> cases h

theorem is_alive_fst (s : ConnState) (env : AliveEnv)
    (hc : s.connected = true) (hcl : s.client = some ()) :
    Option.map Prod.fst (is_alive s env) = aliveResult env := by
  rcases env with ⟨t, iss⟩
  cases t with
  | error m => simp [is_alive, aliveResult, hc, hcl]
  | ok ob =>
    cases ob with
    | none => simp [is_alive, aliveResult, hc, hcl]
    | some b =>
      cases b with
      | false => simp [is_alive, aliveResult, hc, hcl]
      | true =>
        cases iss with
        | error m => simp [is_alive, aliveResult, hc, hcl]
        | ok run =>
          cases hl : aliveLoop run.startTime run.polls with
          | ready =>
            cases hf : run.finale with
            | error m => simp [is_alive, aliveResult, hc, hcl, hl, hf]
            | ok c => simp [is_alive, aliveResult, hc, hcl, hl, hf]
          | timedOut => simp [is_alive, aliveResult, hc, hcl, hl]
          | fault => simp [is_alive, aliveResult, hc, hcl, hl]
          | exhausted => simp [is_alive, aliveResult, hc, hcl, hl]

theorem runAttempt_fst (s : ConnState) (e : AttemptEnv) :
    Option.map Prod.fst (runAttempt s e) = attemptBool e := by
  unfold runAttempt attemptBool
  rcases hco : connect s e.connectEnv with ⟨r, s1⟩
  have hfst : r = connectOutcome e.connectEnv := by
    have h := connect_fst s e.connectEnv
    rw [hco] at h
    exact h
  rw [← hfst]
  cases r with
  | ok =>
    have hst := connect_ok_state s e.connectEnv (by rw [hco])
    rw [hco] at hst
    rw [← is_alive_fst s1 e.aliveEnv hst.1 hst.2]
    cases hia : is_alive s1 e.aliveEnv with
    | none => simp [hia]
    | some p =>
      rcases p with ⟨b, s2⟩
      cases b <;> simp [hia]
  | timeoutErr => simp
  | failErr => simp

theorem runAttempt_eq_of_attemptBool (s : ConnState) (e : AttemptEnv) (b : Bool)
    (h : attemptBool e = some b) : ∃ s1, runAttempt s e = some (b, s1) := by
  have hf := runAttempt_fst s e
  rw [h] at hf
  cases hq : runAttempt s e with
  | none => rw [hq] at hf; simp at hf
  | some p =>
    rcases p with ⟨b1, s1⟩
    rw [hq] at hf
    simp at hf
    exact ⟨s1, by rw [hf]⟩

theorem reconnectAux_allFail (envs : Nat → AttemptEnv) :
    ∀ (n idx : Nat) (s : ConnState), 1 ≤ n →
    (∀ j, j < n → attemptBool (envs (idx + j)) = some false) →
    ∃ s', reconnectAux envs idx n s = some ⟨false, s', n, n - 1⟩ := by
  intro n
  induction n with
  | zero => intro idx s h; omega
  | succ m ih =>
    intro idx s _ hfail
    have h0 : attemptBool (envs idx) = some false := by
      simpa using hfail 0 (Nat.succ_pos m)
    obtain ⟨s1, hs1⟩ := runAttempt_eq_of_attemptBool s (envs idx) false h0
    by_cases hm : m = 0
    · subst hm
      exact ⟨s1, by simp [reconnectAux, hs1]⟩
    · obtain ⟨s', hs'⟩ := ih (idx + 1) s1 (Nat.one_le_iff_ne_zero.mpr hm)
        (fun j hj => by
          have hx := hfail (j + 1) (by omega)
          rw [show idx + (j + 1) = idx + 1 + j by omega] at hx
          exact hx)
      refine ⟨s', ?_⟩
      simp only [reconnectAux, hs1]
      rw [if_neg hm, hs']
      have hmm : m - 1 + 1 = m := by omega
      simp [hmm]

theorem reconnectAux_success (envs : Nat → AttemptEnv) :
    ∀ (k n idx : Nat) (s : ConnState), k < n →
    (∀ j, j < k → attemptBool (envs (idx + j)) = some false) →
    attemptBool (envs (idx + k)) = some true →
    ∃ s', reconnectAux envs idx n s = some ⟨true, s', k + 1, k⟩ := by
  intro k
  induction k with
  | zero =>
    intro n idx s hk _ hsucc
    obtain ⟨m, rfl⟩ : ∃ m, n = m + 1 := ⟨n - 1, by omega⟩
    rw [Nat.add_zero] at hsucc
    obtain ⟨s1, hs1⟩ := runAttempt_eq_of_attemptBool s (envs idx) true hsucc
    exact ⟨s1, by simp [reconnectAux, hs1]⟩
  | succ k ih =>
    intro n idx s hk hfail hsucc
    obtain ⟨m, rfl⟩ : ∃ m, n = m + 1 := ⟨n - 1, by omega⟩
    have h0 : attemptBool (envs idx) = some false := by
      simpa using hfail 0 (Nat.succ_pos k)
    obtain ⟨s1, hs1⟩ := runAttempt_eq_of_attemptBool s (envs idx) false h0
    have hm : m ≠ 0 := by omega
    obtain ⟨s', hs'⟩ := ih m (idx + 1) s1 (by omega)
      (fun j hj => by
        have hx := hfail (j + 1) (by omega)
        rw [show idx + (j + 1) = idx + 1 + j by omega] at hx
        exact hx)
      (by rw [show idx + 1 + k = idx + (k + 1) by omega]; exact hsucc)
    refine ⟨s', ?_⟩
    simp only [reconnectAux, hs1]
    rw [if_neg hm, hs']

theorem reconnectAux_succ_false (envs : Nat → AttemptEnv) (idx m : Nat)
    (s s1 : ConnState) (hra : runAttempt s (envs idx) = some (false, s1))
    (hm : m ≠ 0) :
    reconnectAux envs idx (m + 1) s =
      match reconnectAux envs (idx + 1) m s1 with
      | none => none
      | some o => some ⟨o.result, o.state, o.attempts + 1, o.sleeps + 1⟩ := by
  simp only [reconnectAux, hra]
  rw [if_neg hm]

theorem reconnectAux_attempts_le (envs : Nat → AttemptEnv) :
    ∀ (n idx : Nat) (s : ConnState) (o : ReconnectOut),
    reconnectAux envs idx n s = some o → o.attempts ≤ n := by
  intro n
  induction n with
  | zero =>
    intro idx s o h
    have h' : o = ⟨false, s, 0, 0⟩ := (Option.some.inj h).symm
    rw [h']
  | succ m ih =>
    intro idx s o h
    cases hra : runAttempt s (envs idx) with
    | none =>
      rw [show reconnectAux envs idx (m + 1) s = none by
        simp only [reconnectAux, hra]] at h
      cases h
    | some p =>
      rcases p with ⟨b, s1⟩
      cases b with
      | true =>
        have h' : o = ⟨true, s1, 1, 0⟩ := by
          rw [show reconnectAux envs idx (m + 1) s = some ⟨true, s1, 1, 0⟩ by
            simp only [reconnectAux, hra]] at h
          exact (Option.some.inj h).symm
        rw [h']
        exact Nat.succ_le_succ (Nat.zero_le m)
      | false =>
        by_cases hm : m = 0
        · subst hm
          have h' : o = ⟨false, s1, 1, 0⟩ := by
            rw [show reconnectAux envs idx 1 s = some ⟨false, s1, 1, 0⟩ by
              simp [reconnectAux, hra]] at h
            exact (Option.some.inj h).symm
          rw [h']
        · rw [reconnectAux_succ_false envs idx m s s1 hra hm] at h
          cases hq : reconnectAux envs (idx + 1) m s1 with
          | none => rw [hq] at h; cases h
          | some o1 =>
            rw [hq] at h
            have h' : o = ⟨o1.result, o1.state, o1.attempts + 1, o1.sleeps + 1⟩ :=
              (Option.some.inj h).symm
            rw [h']
            exact Nat.succ_le_succ (ih (idx + 1) s1 o1 hq)

/-! ### Claim C5 -/

/-- C5: `reconnect` never raises; after the initial disconnect it makes
at most `max_retries` attempts, swallowing every `connect` exception; it
returns `true` as soon as a `connect` succeeds and the immediately
following `is_alive` returns `true` (after `k` failed attempts: `k + 1`
attempts and `k` sleeps); if every attempt fails it returns `false` after
exactly `max_retries` attempts and `max_retries - 1` sleeps. -/
theorem reconnect_retry_policy :
    (∀ (s : ConnState) (env : ReconnectEnv) (max_retries : Nat) (delay : Int)
      (o : ReconnectOut),
      reconnect s env max_retries delay = some o → o.attempts ≤ max_retries) ∧
    (∀ (s : ConnState) (env : ReconnectEnv) (max_retries : Nat) (delay : Int),
      1 ≤ max_retries →
      (∀ i, i < max_retries → attemptBool (env.attempts i) = some false) →
      ∃ s', reconnect s env max_retries delay =
        some ⟨false, s', max_retries, max_retries - 1⟩) ∧
    (∀ (s : ConnState) (env : ReconnectEnv) (max_retries : Nat) (delay : Int) (k : Nat),
      k < max_retries →
      (∀ i, i < k → attemptBool (env.attempts i) = some false) →
      attemptBool (env.attempts k) = some true →
      ∃ s', reconnect s env max_retries delay = some ⟨true, s', k + 1, k⟩) := by
  refine ⟨?_, ?_, ?_⟩
  · intro s env n d o h
    exact reconnectAux_attempts_le env.attempts n 0 (disconnect s env.closeRaises) o h
  · intro s env n d h1 hfail
    exact reconnectAux_allFail env.attempts n 0 (disconnect s env.closeRaises) h1
      (fun j hj => by simpa using hfail j hj)
  · intro s env n d k hk hfail hsucc
    exact reconnectAux_success env.attempts k n 0 (disconnect s env.closeRaises) hk
      (fun j hj => by simpa using hfail j hj) (by simpa using hsucc)

/-- A reconnect attempt whose `connect` always raises. -/
def wFailAttempt : AttemptEnv :=
  ⟨⟨.error "Failed", .ok (), none⟩, ⟨.ok (some true), .ok ⟨0, [.check true 0], .ok 0⟩⟩⟩

/-- A reconnect attempt whose `connect` succeeds and whose probe is
healthy. -/
def wOkAttempt : AttemptEnv :=
  ⟨⟨.ok (), .ok (), some "1"⟩, ⟨.ok (some true), .ok ⟨0, [.check true 0], .ok 0⟩⟩⟩

/-- Witness for C5: with `connect` always raising,
`reconnect(max_retries := 2)` makes exactly 2 attempts and 1 sleep and
returns `false`; with a healthy first attempt it returns `true` after
exactly 1 attempt and 0 sleeps. -/
theorem reconnect_retry_policy_witness :
    (∃ s', reconnect wAState ⟨false, fun _ => wFailAttempt⟩ 2 5 =
      some ⟨false, s', 2, 2 - 1⟩) ∧
    (∃ s', reconnect wAState ⟨false, fun _ => wOkAttempt⟩ 2 5 =
      some ⟨true, s', 0 + 1, 0⟩) := by
  constructor
  · exact reconnect_retry_policy.2.1 wAState ⟨false, fun _ => wFailAttempt⟩ 2 5
      (by decide) (fun i _ => rfl)
  · exact reconnect_retry_policy.2.2 wAState ⟨false, fun _ => wOkAttempt⟩ 2 5 0
      (by decide) (fun i h => absurd h (Nat.not_lt_zero i)) rfl

/-! ### Claim C8 -/

instance (s : ConnState) : Decidable (Inv s) := by
  unfold Inv; infer_instance

theorem Inv_setFalse (s : ConnState) : Inv { s with connected := false } :=
  fun hc => Bool.noConfusion hc

theorem connect_client (s : ConnState) (env : ConnectEnv) :
    (connect s env).2.client = some () := by
  rcases env with ⟨kl, tc, bf⟩
  cases kl with
  | error m => rfl
  | ok u =>
    cases u
    cases tc with
    | ok v => rfl
    | error f => cases f <;> rfl

theorem applyHandler_state_cases (msg : String) (s : ConnState)
    (tr : List String) (calls : Nat) :
    (applyHandler msg s tr calls).state = s ∨
    (applyHandler msg s tr calls).state = { s with connected := false } := by
  unfold applyHandler
  split
  · exact Or.inl rfl
  · exact Or.inr rfl

theorem executeIssue_state_cases (command : String) (timeout : Int) (s : ConnState)
    (issue : Except String CommandRun) (calls : Nat) :
    (executeIssue command timeout s issue calls).state = s ∨
    (executeIssue command timeout s issue calls).state = { s with connected := false } := by
  cases issue with
  | error m =>
    simpa only [executeIssue] using applyHandler_state_cases m s [] (calls + 1)
  | ok run =>
    rcases hri : runInner timeout run with ⟨o, tr⟩
    cases o with
    | ok code => exact Or.inl (by simp [executeIssue, hri])
    | timedOut =>
      simp only [executeIssue, hri]
      exact applyHandler_state_cases _ s tr _
    | fault m =>
      simp only [executeIssue, hri]
      exact applyHandler_state_cases _ s tr _
    | undef => exact Or.inl (by simp [executeIssue, hri])

theorem execute_state_cases (command : String) (timeout : Int) (s : ConnState)
    (env : ExecEnv) :
    (execute command timeout s env).state = s ∨
    (execute command timeout s env).state = { s with connected := false } := by
  by_cases hc : s.connected
  · cases hcr : checkReboot s.boot_time env.rebootFetch with
    | reboot =>
      exact Or.inl (by simp [execute, hc, hcr])
    | pass =>
      rw [execute_pass_eq command timeout s env hc hcr]
      exact executeIssue_state_cases command timeout s env.cmdIssue _
  · rw [Bool.not_eq_true] at hc
    exact Or.inl (by simp [execute, hc])

theorem is_alive_state_cases (s : ConnState) (env : AliveEnv) (b : Bool)
    (s' : ConnState) (h : is_alive s env = some (b, s')) :
    s' = s ∨ s' = { s with connected := false } := by
  rcases env with ⟨t, iss⟩
  unfold is_alive at h
  by_cases hg : (!s.connected || s.client.isNone) = true
  · rw [if_pos hg] at h
    exact Or.inl (congrArg Prod.snd (Option.some.inj h)).symm
  · rw [if_neg hg] at h
    cases t with
    | error m => exact Or.inr (congrArg Prod.snd (Option.some.inj h)).symm
    | ok ob =>
      cases ob with
      | none => exact Or.inr (congrArg Prod.snd (Option.some.inj h)).symm
      | some bb =>
        cases bb with
        | false => exact Or.inr (congrArg Prod.snd (Option.some.inj h)).symm
        | true =>
          cases iss with
          | error m => exact Or.inr (congrArg Prod.snd (Option.some.inj h)).symm
          | ok run =>
            dsimp only at h
            cases hl : aliveLoop run.startTime run.polls with
            | exhausted => rw [hl] at h; cases h
            | fault => rw [hl] at h; exact Or.inr (congrArg Prod.snd (Option.some.inj h)).symm
            | timedOut => rw [hl] at h; exact Or.inl (congrArg Prod.snd (Option.some.inj h)).symm
            | ready =>
              rw [hl] at h
              cases hf : run.finale with
              | error m =>
                rw [hf] at h
                exact Or.inr (congrArg Prod.snd (Option.some.inj h)).symm
              | ok c =>
                rw [hf] at h
                exact Or.inl (congrArg Prod.snd (Option.some.inj h)).symm

theorem runAttempt_Inv (s : ConnState) (e : AttemptEnv) (b : Bool) (s1 : ConnState)
    (h : runAttempt s e = some (b, s1)) : Inv s1 := by
  unfold runAttempt at h
  rcases hco : connect s e.connectEnv with ⟨r, s0⟩
  rw [hco] at h
  have hInv0 : Inv s0 := by
    have hc := connect_client s e.connectEnv
    rw [hco] at hc
    exact fun _ => by rw [hc]; rfl
  cases r with
  | ok =>
    dsimp only at h
    cases hia : is_alive s0 e.aliveEnv with
    | none => rw [hia] at h; simp at h
    | some p =>
      rcases p with ⟨b2, s2⟩
      rw [hia] at h
      have hs12 : s2 = s1 := congrArg Prod.snd (Option.some.inj h)
      rcases is_alive_state_cases s0 e.aliveEnv b2 s2 hia with hh | hh
      · rw [← hs12, hh]; exact hInv0
      · rw [← hs12, hh]; exact Inv_setFalse s0
  | timeoutErr =>
    have h3 : s0 = s1 := congrArg Prod.snd (Option.some.inj h)
    rw [← h3]; exact hInv0
  | failErr =>
    have h3 : s0 = s1 := congrArg Prod.snd (Option.some.inj h)
    rw [← h3]; exact hInv0

theorem reconnectAux_Inv (envs : Nat → AttemptEnv) :
    ∀ (n idx : Nat) (s : ConnState) (o : ReconnectOut),
    Inv s → reconnectAux envs idx n s = some o → Inv o.state := by
  intro n
  induction n with
  | zero =>
    intro idx s o hs h
    have h' : o = ⟨false, s, 0, 0⟩ := (Option.some.inj h).symm
    rw [h']
    exact hs
  | succ m ih =>
    intro idx s o hs h
    cases hra : runAttempt s (envs idx) with
    | none =>
      rw [show reconnectAux envs idx (m + 1) s = none by
        simp only [reconnectAux, hra]] at h
      cases h
    | some p =>
      rcases p with ⟨b, s1⟩
      have hInv1 : Inv s1 := runAttempt_Inv s (envs idx) b s1 hra
      cases b with
      | true =>
        have h' : o = ⟨true, s1, 1, 0⟩ := by
          rw [show reconnectAux envs idx (m + 1) s = some ⟨true, s1, 1, 0⟩ by
            simp only [reconnectAux, hra]] at h
          exact (Option.some.inj h).symm
        rw [h']
        exact hInv1
      | false =>
        by_cases hm : m = 0
        · subst hm
          have h' : o = ⟨false, s1, 1, 0⟩ := by
            rw [show reconnectAux envs idx 1 s = some ⟨false, s1, 1, 0⟩ by
              simp [reconnectAux, hra]] at h
            exact (Option.some.inj h).symm
          rw [h']
          exact hInv1
        · rw [reconnectAux_succ_false envs idx m s s1 hra hm] at h
          cases hq : reconnectAux envs (idx + 1) m s1 with
          | none => rw [hq] at h; cases h
          | some o1 =>
            rw [hq] at h
            have h' : o = ⟨o1.result, o1.state, o1.attempts + 1, o1.sleeps + 1⟩ :=
              (Option.some.inj h).symm
            rw [h']
            exact ih (idx + 1) s1 o1 hInv1 hq

/-- C8: `connected = true → client is non-null` holds initially and is
preserved by every operation, on both normal and error exit paths. -/
theorem connection_invariant :
    (∀ (h u k : String) (p : Int), Inv (initState h u k p)) ∧
    (∀ (s : ConnState) (env : ConnectEnv), Inv s → Inv (connect s env).2) ∧
    (∀ (command : String) (timeout : Int) (s : ConnState) (env : ExecEnv),
      Inv s → Inv (execute command timeout s env).state) ∧
    (∀ (s : ConnState) (env : AliveEnv) (b : Bool) (s' : ConnState),
      Inv s → is_alive s env = some (b, s') → Inv s') ∧
    (∀ (s : ConnState) (env : ReconnectEnv) (max_retries : Nat) (delay : Int)
      (o : ReconnectOut),
      Inv s → reconnect s env max_retries delay = some o → Inv o.state) ∧
    (∀ (s : ConnState) (e : Bool), Inv s → Inv (disconnect s e)) := by
  refine ⟨?_, ?_, ?_, ?_, ?_, ?_⟩
  · intro h u k p hc
    exact Bool.noConfusion hc
  · intro s env _ _
    rw [connect_client]
    rfl
  · intro command timeout s env hs
    rcases execute_state_cases command timeout s env with hh | hh
    · rw [hh]; exact hs
    · rw [hh]; exact Inv_setFalse s
  · intro s env b s' hs h
    rcases is_alive_state_cases s env b s' h with hh | hh
    · rw [hh]; exact hs
    · rw [hh]; exact Inv_setFalse s
  · intro s env n d o _ h
    have hd : Inv (disconnect s env.closeRaises) := fun hc => by
      simp [disconnect_eq] at hc
    exact reconnectAux_Inv env.attempts n 0 (disconnect s env.closeRaises) o hd h
  · intro s e _
    exact fun hc => by simp [disconnect_eq] at hc

/-- Witness for C8: the invariant at concrete states and operations. -/
theorem connection_invariant_witness :
    Inv (initState "vm" "root" "/k" 22) ∧
    Inv (connect wAState ⟨.ok (), .ok (), some "1"⟩).2 ∧
    Inv (execute "ls" 60 wAState ⟨none, .error "boom"⟩).state ∧
    Inv wAState ∧
    Inv ((⟨false, ⟨"vm", "root", "/k", 22, some (), false, none⟩, 2, 1⟩ :
      ReconnectOut).state) ∧
    Inv (disconnect wAState false) := by
  refine ⟨?_, ?_, ?_, ?_, ?_, ?_⟩
  · exact connection_invariant.1 "vm" "root" "/k" 22
  · exact connection_invariant.2.1 wAState ⟨.ok (), .ok (), some "1"⟩ (by decide)
  · exact connection_invariant.2.2.1 "ls" 60 wAState ⟨none, .error "boom"⟩ (by decide)
  · exact connection_invariant.2.2.2.1 wAState
      ⟨.ok (some true), .ok ⟨0, [.check true 0], .ok 0⟩⟩ true wAState (by decide) rfl
  · exact connection_invariant.2.2.2.2.1 wAState ⟨false, fun _ => wFailAttempt⟩ 2 5
      ⟨false, ⟨"vm", "root", "/k", 22, some (), false, none⟩, 2, 1⟩ (by decide) rfl
  · exact connection_invariant.2.2.2.2.2 wAState false (by decide)

end VMConn
